import Mathlib

/-!
Shallow embedding of the EverCart backend (`server.js`): the cart and order
lifecycle routes, the admin gate, and the Mongoose document model.

Conventions of the embedding:
* Mongo ObjectIds are modelled as `Nat`; document collections as Lean lists.
* JS strings coming from a request body are modelled as `String`, with the
  empty string standing for an absent/falsy field (`!field` in JS succeeds
  exactly on `""`/`undefined`); numeric request fields that the code tests
  with `=== undefined` or `||` are modelled as `Option Int`.
* Decimal amounts (`price`, `totalAmount`) are modelled as `ℚ`;
  `Math.round(x * 100) / 100` becomes `round2`.
* Each route handler becomes a pure function from the database state and the
  request fields to the new database state plus the HTTP response.  The two
  data-store writes of the checkout route (`Order.create`, `cart.save`) can
  fail for store-level reasons; those failures are injected through the
  booleans `orderCreateOk` and `cartSaveOk`.
-/

namespace Evercart

/-- A product document (`productSchema`). -/
structure Product where
  id : Nat
  name : String
  category : String
  price : ℚ
  brand : String
  rating : ℚ
  availability : Bool
  description : String
  image : String
deriving DecidableEq

/-- A cart line item (`cartSchema.items`): a product reference plus a quantity. -/
structure CartItem where
  productId : Nat
  quantity : Int
deriving DecidableEq

/-- A cart document (`cartSchema`), keyed by the owner's email. -/
structure Cart where
  userEmail : String
  items : List CartItem
deriving DecidableEq

/-- The delivery address block of an order (`orderSchema.deliveryAddress`). -/
structure DeliveryAddress where
  fullName : String
  address : String
  city : String
  state : String
  zipCode : String
  phone : String
deriving DecidableEq

/-- An order line item (`orderSchema.items`): the denormalized product snapshot. -/
structure OrderItem where
  productId : Nat
  productName : String
  productImage : String
  quantity : Int
  price : ℚ
deriving DecidableEq

/-- An order document (`orderSchema`). -/
structure Order where
  id : Nat
  userEmail : String
  items : List OrderItem
  totalAmount : ℚ
  status : String
  deliveryAddress : DeliveryAddress
  paymentMethod : String
  orderDate : Nat
deriving DecidableEq

/-- A user document (`userSchema`). -/
structure User where
  id : Nat
  name : String
  email : String
  password : String
  role : String
deriving DecidableEq

/-- The whole database state: the four Mongo collections. -/
structure DB where
  products : List Product
  users : List User
  carts : List Cart
  orders : List Order
deriving DecidableEq

/-- An HTTP response: status code and message. -/
structure ApiResponse where
  status : Nat
  message : String
deriving DecidableEq

/-- `Product.findById` / populate of an `items.productId` reference. -/
def findProduct (db : DB) (pid : Nat) : Option Product :=
  db.products.find? (fun p => p.id == pid)

/-- `Cart.findOne({ userEmail })`. -/
def findCart (carts : List Cart) (e : String) : Option Cart :=
  carts.find? (fun c => c.userEmail == e)

/-- `email.toLowerCase()` (character-wise ASCII lowering). -/
def jsToLower (s : String) : String :=
  String.mk (s.data.map Char.toLower)

/-- `User.findOne({ email: email.toLowerCase() })`. -/
def findUser (db : DB) (e : String) : Option User :=
  db.users.find? (fun u => u.email == jsToLower e)

/-- `cart.save()` on an existing cart: persist the new item list on every cart
document owned by the email (there is one per email in reachable states). -/
def setCartItems (carts : List Cart) (e : String) (l : List CartItem) : List Cart :=
  carts.map (fun c => if c.userEmail = e then { c with items := l } else c)

/-- `const quantityToAdd = quantity || 1`: JS `||` substitutes the default for
every falsy value, so an absent field *and* an explicit `0` both become `1`. -/
def jsOr1 : Option Int → Int
  | none => 1
  | some q => if q = 0 then 1 else q

/-- The in-memory item mutation of `POST /api/cart/add`: `findIndex` over the
items; on the first match, `quantity += quantityToAdd`; otherwise
`items.push({ productId, quantity })`. -/
def addItems : List CartItem → Nat → Int → List CartItem
  | [], pid, q => [⟨pid, q⟩]
  | it :: rest, pid, q =>
    if it.productId = pid then ⟨it.productId, it.quantity + q⟩ :: rest
    else it :: addItems rest pid q

/-- `POST /api/cart/add`. -/
def apiCartAdd (db : DB) (userEmail : String) (productId : Option Nat)
    (quantity : Option Int) : DB × ApiResponse :=
  match productId with
  | none => (db, ⟨400, "User email and product ID are required"⟩)
  | some pid =>
    if userEmail = "" then (db, ⟨400, "User email and product ID are required"⟩)
    else
      let quantityToAdd := jsOr1 quantity
      if quantityToAdd ≤ 0 then (db, ⟨400, "Quantity must be greater than 0"⟩)
      else
        match findCart db.carts userEmail with
        | none =>
          ({ db with carts := db.carts ++ [⟨userEmail, addItems [] pid quantityToAdd⟩] },
           ⟨200, "Product added to cart successfully"⟩)
        | some cart =>
          ({ db with carts := setCartItems db.carts userEmail (addItems cart.items pid quantityToAdd) },
           ⟨200, "Product added to cart successfully"⟩)

/-- The in-memory item mutation of `POST /api/cart/update`, applied at the
first index whose `productId` matches: `splice` the item out when the new
quantity is `≤ 0`, otherwise overwrite the quantity with it. -/
def updateItems : List CartItem → Nat → Int → List CartItem
  | [], _, _ => []
  | it :: rest, pid, q =>
    if it.productId = pid then (if q ≤ 0 then rest else ⟨it.productId, q⟩ :: rest)
    else it :: updateItems rest pid q

/-- `findIndex(item => item.productId.equals(productId)) !== -1`. -/
def hasItem (l : List CartItem) (pid : Nat) : Bool :=
  l.any (fun it => it.productId == pid)

/-- `POST /api/cart/update`.  The quantity presence test in the source is
`quantity === undefined`, so an explicit `0` is accepted (and removes). -/
def apiCartUpdate (db : DB) (userEmail : String) (productId : Option Nat)
    (quantity : Option Int) : DB × ApiResponse :=
  match productId, quantity with
  | some pid, some q =>
    if userEmail = "" then
      (db, ⟨400, "User email, product ID, and quantity are required"⟩)
    else
      match findCart db.carts userEmail with
      | none => (db, ⟨404, "Cart not found"⟩)
      | some cart =>
        if hasItem cart.items pid then
          ({ db with carts := setCartItems db.carts userEmail (updateItems cart.items pid q) },
           ⟨200, "Cart updated successfully"⟩)
        else (db, ⟨404, "Product not found in cart"⟩)
  | _, _ => (db, ⟨400, "User email, product ID, and quantity are required"⟩)

/-- `POST /api/cart/remove`: keep the items whose reference differs, and fail
with 404 when nothing was removed. -/
def apiCartRemove (db : DB) (userEmail : String) (productId : Option Nat) :
    DB × ApiResponse :=
  match productId with
  | none => (db, ⟨400, "User email and product ID are required"⟩)
  | some pid =>
    if userEmail = "" then (db, ⟨400, "User email and product ID are required"⟩)
    else
      match findCart db.carts userEmail with
      | none => (db, ⟨404, "Cart not found"⟩)
      | some cart =>
        let newItems := cart.items.filter (fun it => !(it.productId == pid))
        if newItems.length = cart.items.length then
          (db, ⟨404, "Product not found in cart"⟩)
        else
          ({ db with carts := setCartItems db.carts userEmail newItems },
           ⟨200, "Product removed from cart successfully"⟩)

/-- `POST /api/cart/clear`: empty an existing cart, or create an empty one. -/
def apiCartClear (db : DB) (userEmail : String) : DB × ApiResponse :=
  if userEmail = "" then (db, ⟨400, "User email is required"⟩)
  else
    match findCart db.carts userEmail with
    | none =>
      ({ db with carts := db.carts ++ [⟨userEmail, []⟩] },
       ⟨200, "Cart not found, created empty cart"⟩)
    | some _ =>
      ({ db with carts := setCartItems db.carts userEmail [] },
       ⟨200, "Cart cleared successfully"⟩)

/-- The `populate('items.productId')` + `cart.items.map(...)` step of the
checkout route.  A dangling product reference populates to `null`, so the
map body throws on `item.productId.price`; the whole step is therefore
`none` as soon as one reference fails to resolve. -/
def resolveItems (db : DB) : List CartItem → Option (List OrderItem)
  | [] => some []
  | it :: rest =>
    match findProduct db it.productId with
    | none => none
    | some p =>
      match resolveItems db rest with
      | none => none
      | some l => some (⟨p.id, p.name, p.image, it.quantity, p.price⟩ :: l)

/-- The running `totalAmount += item.productId.price * item.quantity`. -/
def itemsTotal (l : List OrderItem) : ℚ :=
  (l.map (fun i => (i.quantity : ℚ) * i.price)).sum

/-- `Math.round(totalAmount * 100) / 100` (JS rounds half toward +∞). -/
def round2 (q : ℚ) : ℚ :=
  ((⌊q * 100 + 1 / 2⌋ : ℤ) : ℚ) / 100

/-- Membership in the `paymentMethod` enum of `orderSchema`. -/
def validPaymentMethod (pm : String) : Bool :=
  pm == "card" || pm == "cash_on_delivery" || pm == "upi"

/-- The schema validation `Order.create` runs before inserting: the
`paymentMethod` enum, `quantity` min 1, `price` min 0, `totalAmount` min 0. -/
def orderDocValid (o : Order) : Bool :=
  validPaymentMethod o.paymentMethod
    && o.items.all (fun i => decide (1 ≤ i.quantity) && decide (0 ≤ i.price))
    && decide (0 ≤ o.totalAmount)

/-- The six-field delivery address check of the checkout route. -/
def addrComplete (a : DeliveryAddress) : Bool :=
  a.fullName != "" && a.address != "" && a.city != ""
    && a.state != "" && a.zipCode != "" && a.phone != ""

/-- `POST /api/orders` (checkout).  `now` is `Date.now` at the moment of
`Order.create`; `orderCreateOk`/`cartSaveOk` inject store-level failures of
the two writes.  The returned `Option Order` is the order carried by the
response (present exactly on the 201 path). -/
def apiOrdersPost (db : DB) (userEmail : String)
    (deliveryAddress : Option DeliveryAddress) (paymentMethod : String)
    (now : Nat) (orderCreateOk cartSaveOk : Bool) :
    DB × ApiResponse × Option Order :=
  match deliveryAddress with
  | none => (db, ⟨400, "User email, delivery address, and payment method are required"⟩, none)
  | some a =>
    if userEmail = "" ∨ paymentMethod = "" then
      (db, ⟨400, "User email, delivery address, and payment method are required"⟩, none)
    else if addrComplete a then
      match findCart db.carts userEmail with
      | none => (db, ⟨400, "Cart is empty"⟩, none)
      | some cart =>
        if cart.items.length = 0 then (db, ⟨400, "Cart is empty"⟩, none)
        else
          match resolveItems db cart.items with
          | none => (db, ⟨500, "Failed to create order"⟩, none)
          | some orderItems =>
            let order : Order :=
              { id := db.orders.length
                userEmail := userEmail
                items := orderItems
                totalAmount := round2 (itemsTotal orderItems)
                status := "pending"
                deliveryAddress := a
                paymentMethod := paymentMethod
                orderDate := now }
            if orderDocValid order && orderCreateOk then
              if cartSaveOk then
                ({ db with orders := db.orders ++ [order],
                           carts := setCartItems db.carts userEmail [] },
                 ⟨201, "Order placed successfully"⟩, some order)
              else
                ({ db with orders := db.orders ++ [order] },
                 ⟨500, "Failed to create order"⟩, none)
            else (db, ⟨500, "Failed to create order"⟩, none)
    else (db, ⟨400, "Complete delivery address is required"⟩, none)

deriving instance DecidableEq for Except

/-- The `checkAdmin` middleware: 400 when the email is absent, 404 when no
account matches, 403 when the account is not an admin. -/
def checkAdmin (db : DB) (email : String) : Except ApiResponse User :=
  if email = "" then .error ⟨400, "Email is required for admin verification"⟩
  else
    match findUser db email with
    | none => .error ⟨404, "User not found"⟩
    | some u =>
      if u.role = "admin" then .ok u
      else .error ⟨403, "Admin access required"⟩

/-- `Order.findByIdAndUpdate(id, { status })`: rewrite only the `status`
field of the matching order document. -/
def setOrderStatus (orders : List Order) (oid : Nat) (st : String) : List Order :=
  orders.map (fun o => if o.id = oid then { o with status := st } else o)

/-- The `status` enum of `orderSchema` / the `validStatuses` list of the
admin order route. -/
def validStatuses : List String :=
  ["pending", "processing", "shipped", "delivered", "cancelled"]

/-- `PUT /api/admin/orders/:id`: the inline admin gate (`!user || user.role
!== 'admin'` → 403), the status validation, then
`Order.findByIdAndUpdate(id, { status })`. -/
def apiAdminOrderPut (db : DB) (orderId : Nat) (email status : String) :
    DB × ApiResponse :=
  match findUser db email with
  | none => (db, ⟨403, "Admin access required"⟩)
  | some u =>
    if u.role = "admin" then
      if validStatuses.contains status then
        match db.orders.find? (fun o => o.id == orderId) with
        | none => (db, ⟨404, "Order not found"⟩)
        | some _ =>
          ({ db with orders := setOrderStatus db.orders orderId status },
           ⟨200, "Order status updated successfully"⟩)
      else (db, ⟨400, "Invalid order status"⟩)
    else (db, ⟨403, "Admin access required"⟩)

/-- Cart document invariant: every quantity at least 1, product references
unique within the cart. -/
def itemsInv (l : List CartItem) : Prop :=
  (∀ it ∈ l, 1 ≤ it.quantity) ∧ (l.map (fun it => it.productId)).Nodup

instance (l : List CartItem) : Decidable (itemsInv l) := by
  unfold itemsInv; infer_instance

/-- The invariant over every cart of the database. -/
def dbCartsInv (db : DB) : Prop :=
  ∀ c ∈ db.carts, itemsInv c.items

instance (db : DB) : Decidable (dbCartsInv db) := by
  unfold dbCartsInv; infer_instance

/-- The price a cart line item resolves to (0 for a dangling reference). -/
def priceOf (db : DB) (pid : Nat) : ℚ :=
  ((findProduct db pid).map (fun p => p.price)).getD 0

/-- The checkout total as the spec states it: quantity × current price,
summed over the cart's line items. -/
def cartTotal (db : DB) (l : List CartItem) : ℚ :=
  (l.map (fun it => (it.quantity : ℚ) * priceOf db it.productId)).sum

/-- An order item is the snapshot of the cart item's resolved product. -/
def snapRel (db : DB) (ci : CartItem) (oi : OrderItem) : Prop :=
  ∃ p, findProduct db ci.productId = some p ∧
    oi = ⟨p.id, p.name, p.image, ci.quantity, p.price⟩

/-- A concrete delivery address used to exercise the routes. -/
def addrW : DeliveryAddress :=
  ⟨"Jane Roe", "1 Main St", "Springfield", "IL", "62701", "5550100"⟩

/-- A concrete store: two products (priced 10.00 and 5.50), an admin and a
plain user, and a cart for the plain user holding 3 of the first product and
1 of the second. -/
def dbW : DB :=
  { products := [⟨1, "Widget X", "Gadgets", 10, "Acme", 4, true, "A widget", "x.png"⟩,
                 ⟨2, "Widget Y", "Gadgets", 11 / 2, "Acme", 5, true, "Another widget", "y.png"⟩]
    users := [⟨1, "Admin", "admin@x.com", "h", "admin"⟩, ⟨2, "Pat", "pat@x.com", "h", "user"⟩]
    carts := [⟨"pat@x.com", [⟨1, 3⟩, ⟨2, 1⟩]⟩]
    orders := [] }

/-- An entirely empty store. -/
def dbEmpty : DB := ⟨[], [], [], []⟩

/-- A store with one existing order, an admin and a plain user. -/
def dbOrders : DB :=
  { products := []
    users := [⟨1, "Admin", "admin@x.com", "h", "admin"⟩, ⟨2, "Pat", "pat@x.com", "h", "user"⟩]
    carts := []
    orders := [⟨0, "pat@x.com", [⟨1, "Widget X", "x.png", 3, 10⟩], 30, "pending", addrW, "card", 0⟩] }

/-- A store whose only cart references a product id (9) that no product has:
a dangling reference. -/
def dbDangling : DB :=
  { products := [⟨1, "Widget X", "Gadgets", 10, "Acme", 4, true, "A widget", "x.png"⟩]
    users := [⟨2, "Pat", "pat@x.com", "h", "user"⟩]
    carts := [⟨"pat@x.com", [⟨9, 2⟩]⟩]
    orders := [] }

/-- The order the checkout of `dbW`'s cart creates. -/
def orderW : Order :=
  ⟨0, "pat@x.com", [⟨1, "Widget X", "x.png", 3, 10⟩, ⟨2, "Widget Y", "y.png", 1, 11 / 2⟩],
   71 / 2, "pending", addrW, "card", 0⟩

/-- `dbW` after the checkout: the order recorded, the cart emptied. -/
def dbWAfter : DB :=
  { dbW with orders := [orderW], carts := [⟨"pat@x.com", []⟩] }

/-- `dbOrders` after the admin ships order 0. -/
def dbOrdersShipped : DB :=
  { dbOrders with orders :=
      [⟨0, "pat@x.com", [⟨1, "Widget X", "x.png", 3, 10⟩], 30, "shipped", addrW, "card", 0⟩] }

/-- The cart for `e` holds exactly one line item for product `pid`, with
quantity `s` (everything else in the cart references other products). -/
def pidState (db : DB) (e : String) (pid : Nat) (s : Int) : Prop :=
  ∃ c l₁ l₂, findCart db.carts e = some c ∧ c.items = l₁ ++ ⟨pid, s⟩ :: l₂ ∧
    (∀ it ∈ l₁, it.productId ≠ pid) ∧ (∀ it ∈ l₂, it.productId ≠ pid)

theorem findCart_email {carts : List Cart} {e : String} {c : Cart}
    (h : findCart carts e = some c) : c.userEmail = e := by
  simpa using List.find?_some h

theorem findCart_mem {carts : List Cart} {e : String} {c : Cart}
    (h : findCart carts e = some c) : c ∈ carts :=
  List.mem_of_find?_eq_some h

theorem findCart_setCartItems (carts : List Cart) (e : String) (l : List CartItem) :
    findCart (setCartItems carts e l) e =
      (findCart carts e).map (fun c => { c with items := l }) := by
  induction carts with
  | nil => rfl
  | cons c cs ih =>
    by_cases h : c.userEmail = e
    · simp [findCart, setCartItems, List.find?_cons_of_pos, h]
    · simp only [findCart, setCartItems, List.map_cons, if_neg h] at ih ⊢
      rw [List.find?_cons_of_neg, List.find?_cons_of_neg, ih]
      · simpa using h
      · simpa using h

theorem findCart_append_singleton {carts : List Cart} {e : String}
    (h : findCart carts e = none) (c : Cart) (hc : c.userEmail = e) :
    findCart (carts ++ [c]) e = some c := by
  simp only [findCart] at h ⊢
  rw [List.find?_append, h, Option.none_or, List.find?_cons_of_pos]
  simpa using hc

theorem addItems_of_not_mem {l : List CartItem} {pid : Nat}
    (h : ∀ it ∈ l, it.productId ≠ pid) (q : Int) :
    addItems l pid q = l ++ [⟨pid, q⟩] := by
  induction l with
  | nil => rfl
  | cons it rest ih =>
    have hit : it.productId ≠ pid := h it (by simp)
    simp only [addItems, if_neg hit, List.cons_append, List.cons.injEq, true_and]
    exact ih (fun x hx => h x (by simp [hx]))

theorem addItems_split {l₁ l₂ : List CartItem} {pid : Nat} {s : Int}
    (h : ∀ it ∈ l₁, it.productId ≠ pid) (q : Int) :
    addItems (l₁ ++ ⟨pid, s⟩ :: l₂) pid q = l₁ ++ ⟨pid, s + q⟩ :: l₂ := by
  induction l₁ with
  | nil => simp [addItems]
  | cons it rest ih =>
    have hit : it.productId ≠ pid := h it (by simp)
    simp only [List.cons_append, addItems, if_neg hit, List.cons.injEq, true_and]
    exact ih (fun x hx => h x (by simp [hx]))

theorem filter_pid_eq_single {l₁ l₂ : List CartItem} {pid : Nat} {s : Int}
    (h₁ : ∀ it ∈ l₁, it.productId ≠ pid) (h₂ : ∀ it ∈ l₂, it.productId ≠ pid) :
    (l₁ ++ ⟨pid, s⟩ :: l₂).filter (fun it => it.productId == pid) = [⟨pid, s⟩] := by
  have e₁ : l₁.filter (fun it => it.productId == pid) = [] := by
    rw [List.filter_eq_nil_iff]; intro a ha; simpa using h₁ a ha
  have e₂ : l₂.filter (fun it => it.productId == pid) = [] := by
    rw [List.filter_eq_nil_iff]; intro a ha; simpa using h₂ a ha
  simp [List.filter_append, List.filter_cons, e₁, e₂]

theorem addItems_map_productId (l : List CartItem) (pid : Nat) (q : Int) :
    (addItems l pid q).map (fun it => it.productId) =
      if pid ∈ l.map (fun it => it.productId) then l.map (fun it => it.productId)
      else l.map (fun it => it.productId) ++ [pid] := by
  induction l with
  | nil => simp [addItems]
  | cons it rest ih =>
    by_cases h : it.productId = pid
    · simp [addItems, h]
    · simp only [addItems, if_neg h, List.map_cons, ih, List.mem_cons]
      by_cases hm : pid ∈ rest.map (fun it => it.productId)
      · simp [hm, Ne.symm h]
      · simp [hm, Ne.symm h]

theorem addItems_quantity {l : List CartItem} {q : Int} (hq : 1 ≤ q)
    (h : ∀ it ∈ l, 1 ≤ it.quantity) (pid : Nat) :
    ∀ it ∈ addItems l pid q, 1 ≤ it.quantity := by
  induction l with
  | nil => simpa [addItems] using hq
  | cons hd rest ih =>
    by_cases hhd : hd.productId = pid
    · have h1 : (1 : Int) ≤ hd.quantity := h hd (by simp)
      simp only [addItems, if_pos hhd, List.mem_cons]
      rintro it (rfl | hit)
      · simp only; omega
      · exact h it (by simp [hit])
    · simp only [addItems, if_neg hhd, List.mem_cons]
      rintro it (rfl | hit)
      · exact h it (by simp)
      · exact ih (fun x hx => h x (by simp [hx])) it hit

theorem itemsInv_addItems {l : List CartItem} {q : Int} (hq : 1 ≤ q)
    (h : itemsInv l) (pid : Nat) : itemsInv (addItems l pid q) := by
  obtain ⟨hqty, hnd⟩ := h
  refine ⟨addItems_quantity hq hqty pid, ?_⟩
  rw [addItems_map_productId]
  by_cases hm : pid ∈ l.map (fun it => it.productId)
  · simpa [hm] using hnd
  · simp only [if_neg hm]
    simp [List.nodup_append, hnd, hm]

theorem updateItems_quantity {l : List CartItem} {q : Int}
    (h : ∀ it ∈ l, 1 ≤ it.quantity) (pid : Nat) :
    ∀ it ∈ updateItems l pid q, 1 ≤ it.quantity := by
  induction l with
  | nil => simp [updateItems]
  | cons hd rest ih =>
    by_cases hhd : hd.productId = pid
    · simp only [updateItems, if_pos hhd]
      by_cases hq : q ≤ 0
      · simp only [if_pos hq]
        exact fun it hit => h it (by simp [hit])
      · simp only [if_neg hq, List.mem_cons]
        rintro it (rfl | hit)
        · simp only; omega
        · exact h it (by simp [hit])
    · simp only [updateItems, if_neg hhd, List.mem_cons]
      rintro it (rfl | hit)
      · exact h it (by simp)
      · exact ih (fun x hx => h x (by simp [hx])) it hit

theorem updateItems_map_sublist (l : List CartItem) (pid : Nat) (q : Int) :
    ((updateItems l pid q).map (fun it => it.productId)).Sublist
      (l.map (fun it => it.productId)) := by
  induction l with
  | nil => simp [updateItems]
  | cons hd rest ih =>
    by_cases hhd : hd.productId = pid
    · simp only [updateItems, if_pos hhd]
      by_cases hq : q ≤ 0
      · simp only [if_pos hq, List.map_cons]
        exact (List.Sublist.refl _).cons _
      · simp [if_neg hq, hhd]
    · simp only [updateItems, if_neg hhd, List.map_cons]
      exact ih.cons₂ _

theorem itemsInv_updateItems {l : List CartItem} (h : itemsInv l)
    (pid : Nat) (q : Int) : itemsInv (updateItems l pid q) :=
  ⟨updateItems_quantity h.1 pid, h.2.sublist (updateItems_map_sublist l pid q)⟩

theorem updateItems_removes {l : List CartItem} {q : Int} (hq : q ≤ 0)
    (hnd : (l.map (fun it => it.productId)).Nodup) (pid : Nat) :
    ∀ it ∈ updateItems l pid q, it.productId ≠ pid := by
  induction l with
  | nil => simp [updateItems]
  | cons hd rest ih =>
    simp only [List.map_cons, List.nodup_cons, List.mem_map] at hnd
    by_cases hhd : hd.productId = pid
    · simp only [updateItems, if_pos hhd, if_pos hq]
      intro it hit heq
      exact hnd.1 ⟨it, hit, by rw [heq, hhd]⟩
    · simp only [updateItems, if_neg hhd, List.mem_cons]
      rintro it (rfl | hit)
      · exact hhd
      · exact ih hnd.2 it hit

theorem itemsInv_filter {l : List CartItem} (h : itemsInv l)
    (p : CartItem → Bool) : itemsInv (l.filter p) :=
  ⟨fun it hit => h.1 it (List.mem_of_mem_filter hit),
   h.2.sublist ((List.filter_sublist l).map _)⟩

theorem setCartItems_inv {carts : List Cart} {l : List CartItem}
    (h : ∀ c ∈ carts, itemsInv c.items) (hl : itemsInv l) (e : String) :
    ∀ c ∈ setCartItems carts e l, itemsInv c.items := by
  intro c hc
  obtain ⟨c₀, hc₀, rfl⟩ := List.mem_map.mp hc
  by_cases he : c₀.userEmail = e
  · simpa [he] using hl
  · simpa [he] using h c₀ hc₀

theorem itemsInv_nil : itemsInv [] := ⟨by simp, by simp⟩

theorem dbCartsInv_apiCartAdd {db : DB} (h : dbCartsInv db) (e : String)
    (pid : Option Nat) (q : Option Int) : dbCartsInv (apiCartAdd db e pid q).1 := by
  unfold apiCartAdd
  dsimp only
  split
  · exact h
  · rename_i p
    split
    · exact h
    · split
      · exact h
      · rename_i hq
        have hq1 : (1 : Int) ≤ jsOr1 q := by omega
        split
        · intro c hc
          rcases List.mem_append.mp hc with hc' | hc'
          · exact h c hc'
          · have hc'' : c = ⟨e, addItems [] p (jsOr1 q)⟩ := by simpa using hc'
            subst hc''
            exact itemsInv_addItems hq1 itemsInv_nil p
        · rename_i cart hfc
          exact setCartItems_inv h (itemsInv_addItems hq1 (h cart (findCart_mem hfc)) p) e

theorem dbCartsInv_apiCartUpdate {db : DB} (h : dbCartsInv db) (e : String)
    (pid : Option Nat) (q : Option Int) : dbCartsInv (apiCartUpdate db e pid q).1 := by
  unfold apiCartUpdate
  split
  · rename_i p qv
    split
    · exact h
    · split
      · exact h
      · rename_i cart hfc
        split
        · exact setCartItems_inv h (itemsInv_updateItems (h cart (findCart_mem hfc)) p qv) e
        · exact h
  · exact h

theorem dbCartsInv_apiCartRemove {db : DB} (h : dbCartsInv db) (e : String)
    (pid : Option Nat) : dbCartsInv (apiCartRemove db e pid).1 := by
  unfold apiCartRemove
  dsimp only
  split
  · exact h
  · rename_i p
    split
    · exact h
    · split
      · exact h
      · rename_i cart hfc
        split
        · exact h
        · exact setCartItems_inv h (itemsInv_filter (h cart (findCart_mem hfc)) _) e

theorem dbCartsInv_apiCartClear {db : DB} (h : dbCartsInv db) (e : String) :
    dbCartsInv (apiCartClear db e).1 := by
  unfold apiCartClear
  split
  · exact h
  · split
    · intro c hc
      rcases List.mem_append.mp hc with hc' | hc'
      · exact h c hc'
      · have hc'' : c = ⟨e, []⟩ := by simpa using hc'
        subst hc''
        exact itemsInv_nil
    · exact setCartItems_inv h itemsInv_nil e

theorem dbCartsInv_apiOrdersPost {db : DB} (h : dbCartsInv db) (e : String)
    (da : Option DeliveryAddress) (pm : String) (now : Nat) (co cs : Bool) :
    dbCartsInv (apiOrdersPost db e da pm now co cs).1 := by
  unfold apiOrdersPost
  dsimp only
  split
  · exact h
  · split
    · exact h
    · split
      · split
        · exact h
        · split
          · exact h
          · split
            · exact h
            · split
              · split
                · exact setCartItems_inv h itemsInv_nil e
                · exact h
              · exact h
      · exact h

theorem resolveItems_forall₂ {db : DB} {l : List CartItem} {its : List OrderItem}
    (h : resolveItems db l = some its) : List.Forall₂ (snapRel db) l its := by
  induction l generalizing its with
  | nil =>
    simp only [resolveItems, Option.some.injEq] at h
    subst h; constructor
  | cons it rest ih =>
    unfold resolveItems at h
    cases hp : findProduct db it.productId with
    | none => rw [hp] at h; cases h
    | some p =>
      rw [hp] at h
      cases hr : resolveItems db rest with
      | none => rw [hr] at h; cases h
      | some l' =>
        rw [hr] at h
        simp only [Option.some.injEq] at h
        subst h
        exact List.Forall₂.cons ⟨p, hp, rfl⟩ (ih hr)

theorem resolveItems_total {db : DB} {l : List CartItem} {its : List OrderItem}
    (h : resolveItems db l = some its) : itemsTotal its = cartTotal db l := by
  induction l generalizing its with
  | nil =>
    simp only [resolveItems, Option.some.injEq] at h
    subst h; simp [itemsTotal, cartTotal]
  | cons it rest ih =>
    unfold resolveItems at h
    cases hp : findProduct db it.productId with
    | none => rw [hp] at h; cases h
    | some p =>
      rw [hp] at h
      cases hr : resolveItems db rest with
      | none => rw [hr] at h; cases h
      | some l' =>
        rw [hr] at h
        simp only [Option.some.injEq] at h
        subst h
        simp only [itemsTotal, cartTotal, List.map_cons, List.sum_cons] at ih ⊢
        rw [ih hr, priceOf, hp]
        rfl

theorem resolveItems_none {db : DB} {l : List CartItem}
    (h : ∃ it ∈ l, findProduct db it.productId = none) : resolveItems db l = none := by
  induction l with
  | nil => obtain ⟨it, hit, -⟩ := h; cases hit
  | cons hd rest ih =>
    obtain ⟨it, hit, hnone⟩ := h
    unfold resolveItems
    rcases List.mem_cons.mp hit with rfl | hit'
    · rw [hnone]
    · cases hp : findProduct db hd.productId
      · rfl
      · rw [ih ⟨it, hit', hnone⟩]

theorem apiOrdersPost_201 {db : DB} {e : String} {a : DeliveryAddress} {pm : String}
    {now : Nat} {co cs : Bool} {db' : DB} {r : ApiResponse} {ro : Option Order}
    (h : apiOrdersPost db e (some a) pm now co cs = (db', r, ro))
    (hst : r.status = 201) :
    ∃ cart orderItems,
      findCart db.carts e = some cart ∧ cart.items.length ≠ 0 ∧
      resolveItems db cart.items = some orderItems ∧
      ro = some ⟨db.orders.length, e, orderItems, round2 (itemsTotal orderItems),
                 "pending", a, pm, now⟩ ∧
      db' = { db with
        orders := db.orders ++ [⟨db.orders.length, e, orderItems,
                   round2 (itemsTotal orderItems), "pending", a, pm, now⟩],
        carts := setCartItems db.carts e [] } := by
  unfold apiOrdersPost at h
  dsimp only at h
  split at h
  · simp only [Prod.mk.injEq] at h
    obtain ⟨-, hr, -⟩ := h; subst hr; simp at hst
  · split at h
    · split at h
      · simp only [Prod.mk.injEq] at h
        obtain ⟨-, hr, -⟩ := h; subst hr; simp at hst
      · rename_i cart hcart
        split at h
        · simp only [Prod.mk.injEq] at h
          obtain ⟨-, hr, -⟩ := h; subst hr; simp at hst
        · rename_i hlen
          split at h
          · simp only [Prod.mk.injEq] at h
            obtain ⟨-, hr, -⟩ := h; subst hr; simp at hst
          · rename_i orderItems hres
            split at h
            · split at h
              · simp only [Prod.mk.injEq] at h
                obtain ⟨hdb, hr, hro⟩ := h
                subst hdb; subst hr; subst hro
                exact ⟨cart, orderItems, hcart, hlen, hres, rfl, rfl⟩
              · simp only [Prod.mk.injEq] at h
                obtain ⟨-, hr, -⟩ := h; subst hr; simp at hst
            · simp only [Prod.mk.injEq] at h
              obtain ⟨-, hr, -⟩ := h; subst hr; simp at hst
    · simp only [Prod.mk.injEq] at h
      obtain ⟨-, hr, -⟩ := h; subst hr; simp at hst

theorem apiOrdersPost_same_orders_same_carts {db : DB} {e : String}
    {da : Option DeliveryAddress} {pm : String} {now : Nat} {co cs : Bool}
    {db' : DB} {r : ApiResponse} {ro : Option Order}
    (h : apiOrdersPost db e da pm now co cs = (db', r, ro))
    (ho : db'.orders = db.orders) : db'.carts = db.carts := by
  unfold apiOrdersPost at h
  dsimp only at h
  split at h
  · simp only [Prod.mk.injEq] at h
    obtain ⟨hdb, -, -⟩ := h; subst hdb; rfl
  · split at h
    · simp only [Prod.mk.injEq] at h
      obtain ⟨hdb, -, -⟩ := h; subst hdb; rfl
    · split at h
      · split at h
        · simp only [Prod.mk.injEq] at h
          obtain ⟨hdb, -, -⟩ := h; subst hdb; rfl
        · split at h
          · simp only [Prod.mk.injEq] at h
            obtain ⟨hdb, -, -⟩ := h; subst hdb; rfl
          · split at h
            · simp only [Prod.mk.injEq] at h
              obtain ⟨hdb, -, -⟩ := h; subst hdb; rfl
            · split at h
              · split at h
                · simp only [Prod.mk.injEq] at h
                  obtain ⟨hdb, -, -⟩ := h; subst hdb
                  simp at ho
                · simp only [Prod.mk.injEq] at h
                  obtain ⟨hdb, -, -⟩ := h; subst hdb
                  simp at ho
              · simp only [Prod.mk.injEq] at h
                obtain ⟨hdb, -, -⟩ := h; subst hdb; rfl
      · simp only [Prod.mk.injEq] at h
        obtain ⟨hdb, -, -⟩ := h; subst hdb; rfl

theorem apiAdminOrderPut_200 {db : DB} {oid : Nat} {e st : String}
    {db' : DB} {r : ApiResponse}
    (h : apiAdminOrderPut db oid e st = (db', r)) (hst : r.status = 200) :
    db' = { db with orders := setOrderStatus db.orders oid st } := by
  unfold apiAdminOrderPut at h
  split at h
  · simp only [Prod.mk.injEq] at h
    obtain ⟨-, hr⟩ := h; subst hr; simp at hst
  · split at h
    · split at h
      · split at h
        · simp only [Prod.mk.injEq] at h
          obtain ⟨-, hr⟩ := h; subst hr; simp at hst
        · simp only [Prod.mk.injEq] at h
          obtain ⟨hdb, -⟩ := h
          exact hdb.symm
      · simp only [Prod.mk.injEq] at h
        obtain ⟨-, hr⟩ := h; subst hr; simp at hst
    · simp only [Prod.mk.injEq] at h
      obtain ⟨-, hr⟩ := h; subst hr; simp at hst

theorem jsOr1_pos {q : Int} (hq : 0 < q) : jsOr1 (some q) = q := by
  simp only [jsOr1, if_neg (by omega : ¬q = 0)]

theorem pidState_init {db : DB} {e : String} {pid : Nat} {q : Int}
    (he : e ≠ "") (hq : 0 < q)
    (habs : ∀ c, findCart db.carts e = some c → ∀ it ∈ c.items, it.productId ≠ pid) :
    pidState (apiCartAdd db e (some pid) (some q)).1 e pid q := by
  unfold apiCartAdd
  dsimp only
  rw [if_neg he, jsOr1_pos hq, if_neg (by omega : ¬q ≤ 0)]
  cases hfc : findCart db.carts e with
  | none =>
    refine ⟨⟨e, [⟨pid, q⟩]⟩, [], [], ?_, rfl, by simp, by simp⟩
    exact findCart_append_singleton hfc _ rfl
  | some c =>
    dsimp only
    have habs' := habs c hfc
    refine ⟨{ c with items := c.items ++ [⟨pid, q⟩] }, c.items, [], ?_, ?_, habs', by simp⟩
    · rw [show (addItems c.items pid q) = c.items ++ [⟨pid, q⟩] from addItems_of_not_mem habs' q]
      simp [findCart_setCartItems, hfc]
    · simp

theorem pidState_step {db : DB} {e : String} {pid : Nat} {s q : Int}
    (he : e ≠ "") (hq : 0 < q) (hst : pidState db e pid s) :
    pidState (apiCartAdd db e (some pid) (some q)).1 e pid (s + q) := by
  obtain ⟨c, l₁, l₂, hc, hitems, h₁, h₂⟩ := hst
  unfold apiCartAdd
  dsimp only
  rw [if_neg he, jsOr1_pos hq, if_neg (by omega : ¬q ≤ 0), hc]
  dsimp only
  refine ⟨{ c with items := l₁ ++ ⟨pid, s + q⟩ :: l₂ }, l₁, l₂, ?_, rfl, h₁, h₂⟩
  rw [hitems, addItems_split h₁ q]
  simp [findCart_setCartItems, hc]

theorem pidState_fold {e : String} {pid : Nat} (he : e ≠ "") :
    ∀ {qs : List Int} {db : DB} {s : Int}, (∀ q ∈ qs, 0 < q) → pidState db e pid s →
    pidState (qs.foldl (fun d q => (apiCartAdd d e (some pid) (some q)).1) db) e pid
      (s + qs.sum) := by
  intro qs
  induction qs with
  | nil => intro db s _ hst; simpa using hst
  | cons q rest ih =>
    intro db s hpos hst
    simp only [List.foldl_cons, List.sum_cons]
    have h' := ih (fun x hx => hpos x (by simp [hx]))
      (pidState_step he (hpos q (by simp)) hst)
    have hsum : s + q + rest.sum = s + (q + rest.sum) := by ring
    rwa [hsum] at h'

theorem dbW_checkout_run :
    apiOrdersPost dbW "pat@x.com" (some addrW) "card" 0 true true =
      (dbWAfter, ⟨201, "Order placed successfully"⟩, some orderW) := by
  simp [apiOrdersPost, dbW, dbWAfter, orderW, findCart, List.find?, addrComplete, addrW,
    resolveItems, findProduct, orderDocValid, validPaymentMethod, itemsTotal, round2,
    setCartItems]
  norm_num [Int.floor_eq_iff]

theorem apiOrdersPost_fail_same_carts {db : DB} {e : String}
    {da : Option DeliveryAddress} {pm : String} {now : Nat} {co cs : Bool}
    {db' : DB} {r : ApiResponse} {ro : Option Order}
    (h : apiOrdersPost db e da pm now co cs = (db', r, ro))
    (hst : r.status ≠ 201) : db'.carts = db.carts := by
  unfold apiOrdersPost at h
  dsimp only at h
  split at h
  · simp only [Prod.mk.injEq] at h
    obtain ⟨hdb, -, -⟩ := h; subst hdb; rfl
  · split at h
    · simp only [Prod.mk.injEq] at h
      obtain ⟨hdb, -, -⟩ := h; subst hdb; rfl
    · split at h
      · split at h
        · simp only [Prod.mk.injEq] at h
          obtain ⟨hdb, -, -⟩ := h; subst hdb; rfl
        · split at h
          · simp only [Prod.mk.injEq] at h
            obtain ⟨hdb, -, -⟩ := h; subst hdb; rfl
          · split at h
            · simp only [Prod.mk.injEq] at h
              obtain ⟨hdb, -, -⟩ := h; subst hdb; rfl
            · split at h
              · split at h
                · simp only [Prod.mk.injEq] at h
                  obtain ⟨-, hr, -⟩ := h; subst hr
                  simp at hst
                · simp only [Prod.mk.injEq] at h
                  obtain ⟨hdb, -, -⟩ := h; subst hdb; rfl
              · simp only [Prod.mk.injEq] at h
                obtain ⟨hdb, -, -⟩ := h; subst hdb; rfl
      · simp only [Prod.mk.injEq] at h
        obtain ⟨hdb, -, -⟩ := h; subst hdb; rfl

/-- C1: for every checkout (`POST /api/orders`) that creates an order (201)
on a cart whose line items all resolve, the created order's `totalAmount`
equals the sum over the cart's line items of quantity × the product's current
price, rounded to 2 decimal places, and each order item carries the snapshot
(product id, name, image, quantity, unit price) taken from the product's data
at checkout time. -/
theorem c1_checkout_total_snapshot {db : DB} {e : String} {a : DeliveryAddress}
    {pm : String} {now : Nat} {co cs : Bool} {db' : DB} {r : ApiResponse}
    {ro : Option Order} {c : Cart}
    (hrun : apiOrdersPost db e (some a) pm now co cs = (db', r, ro))
    (hst : r.status = 201) (hc : findCart db.carts e = some c) :
    ∃ o, ro = some o ∧ o.totalAmount = round2 (cartTotal db c.items) ∧
      List.Forall₂ (snapRel db) c.items o.items := by
  obtain ⟨cart, its, hcart, hlen, hres, hro, hdb⟩ := apiOrdersPost_201 hrun hst
  rw [hc] at hcart
  injection hcart with hcc
  subst hcc
  refine ⟨_, hro, ?_, resolveItems_forall₂ hres⟩
  show round2 (itemsTotal its) = round2 (cartTotal db c.items)
  rw [resolveItems_total hres]

/-- C1 witness: the spec's worked example — cart {product 1: qty 3 at 10.00,
product 2: qty 1 at 5.50} checks out to a 201 order with total 35.50 and the
two price snapshots. -/
theorem c1_checkout_total_snapshot_witness :
    findCart dbW.carts "pat@x.com" = some ⟨"pat@x.com", [⟨1, 3⟩, ⟨2, 1⟩]⟩ ∧
    ∃ o, (some orderW : Option Order) = some o ∧
      o.totalAmount = round2 (cartTotal dbW (Cart.mk "pat@x.com" [⟨1, 3⟩, ⟨2, 1⟩]).items) ∧
      List.Forall₂ (snapRel dbW) (Cart.mk "pat@x.com" [⟨1, 3⟩, ⟨2, 1⟩]).items o.items :=
  ⟨by decide, c1_checkout_total_snapshot dbW_checkout_run rfl (by decide)⟩

/-- C2: for every checkout, a 201 response implies the order was recorded and
the source cart emptied in the same operation, and a run that records no
order leaves the carts untouched. -/
theorem c2_checkout_atomicity {db : DB} {e : String} {da : Option DeliveryAddress}
    {pm : String} {now : Nat} {co cs : Bool} {db' : DB} {r : ApiResponse}
    {ro : Option Order}
    (hrun : apiOrdersPost db e da pm now co cs = (db', r, ro)) :
    (r.status = 201 → ∃ o, ro = some o ∧ db'.orders = db.orders ++ [o] ∧
      ∀ c, findCart db.carts e = some c →
        findCart db'.carts e = some { c with items := [] }) ∧
    (r.status ≠ 201 → db'.carts = db.carts) ∧
    (db'.orders = db.orders → db'.carts = db.carts) := by
  refine ⟨?_, fun hst => apiOrdersPost_fail_same_carts hrun hst, ?_⟩
  · intro hst
    cases da with
    | none =>
      unfold apiOrdersPost at hrun
      dsimp only at hrun
      simp only [Prod.mk.injEq] at hrun
      obtain ⟨-, hr, -⟩ := hrun; subst hr; simp at hst
    | some a =>
      obtain ⟨cart, its, hcart, hlen, hres, hro, hdb⟩ := apiOrdersPost_201 hrun hst
      subst hdb
      refine ⟨_, hro, rfl, ?_⟩
      intro c hc
      show findCart (setCartItems db.carts e []) e = _
      rw [findCart_setCartItems, hc]
      rfl
  · exact apiOrdersPost_same_orders_same_carts hrun

/-- C2 witness: on the concrete checkout of `dbW`, the 201 response comes
with the recorded order and the emptied cart, and the no-new-order
implication holds. -/
theorem c2_checkout_atomicity_witness :
    ((⟨201, "Order placed successfully"⟩ : ApiResponse).status = 201 →
      ∃ o, (some orderW : Option Order) = some o ∧
        dbWAfter.orders = dbW.orders ++ [o] ∧
        ∀ c, findCart dbW.carts "pat@x.com" = some c →
          findCart dbWAfter.carts "pat@x.com" = some { c with items := [] }) ∧
    ((⟨201, "Order placed successfully"⟩ : ApiResponse).status ≠ 201 →
      dbWAfter.carts = dbW.carts) ∧
    (dbWAfter.orders = dbW.orders → dbWAfter.carts = dbW.carts) :=
  c2_checkout_atomicity dbW_checkout_run

/-- C3: starting from a cart in which the product is absent, N successful
adds (`POST /api/cart/add`) with positive quantities q1..qN leave exactly one
line item for that product, holding quantity q1+...+qN — merge, not
overwrite, and no duplicate line item. -/
theorem c3_add_accumulates {db : DB} {e : String} {pid : Nat} {qs : List Int}
    (he : e ≠ "") (hne : qs ≠ []) (hpos : ∀ q ∈ qs, 0 < q)
    (habs : ∀ c, findCart db.carts e = some c → ∀ it ∈ c.items, it.productId ≠ pid) :
    ∃ c, findCart (qs.foldl (fun d q => (apiCartAdd d e (some pid) (some q)).1) db).carts e
        = some c ∧
      c.items.filter (fun it => it.productId == pid) = [⟨pid, qs.sum⟩] := by
  cases qs with
  | nil => exact absurd rfl hne
  | cons q rest =>
    simp only [List.foldl_cons]
    have h0 := pidState_init he (hpos q (by simp)) habs
    have h1 := pidState_fold he (fun x hx => hpos x (List.mem_cons_of_mem q hx)) h0
    obtain ⟨c, l₁, l₂, hc, hitems, h₁, h₂⟩ := h1
    refine ⟨c, hc, ?_⟩
    rw [hitems, filter_pid_eq_single h₁ h₂]
    simp

/-- C3 witness: two adds of quantities 2 and 3 for a product absent from the
cart produce a single line item with quantity 5. -/
theorem c3_add_accumulates_witness :
    ("kim@x.com" : String) ≠ "" ∧ ([2, 3] : List Int) ≠ [] ∧
    (∃ c, findCart (([2, 3] : List Int).foldl
        (fun d q => (apiCartAdd d "kim@x.com" (some 5) (some q)).1) dbW).carts "kim@x.com"
          = some c ∧
      c.items.filter (fun it => it.productId == 5) = [⟨5, 5⟩]) := by
  refine ⟨by decide, by decide, c3_add_accumulates (by decide) (by decide) (by decide) ?_⟩
  intro c hc
  rw [show findCart dbW.carts "kim@x.com" = none from by decide] at hc
  cases hc

/-- C4: a syntactically valid checkout request (email, complete six-field
address, payment method all present) on a missing or empty cart fails with
the "Cart is empty" validation error, creates no order, and changes no
state. -/
theorem c4_empty_cart_checkout {db : DB} {e : String} {a : DeliveryAddress}
    {pm : String} (now : Nat) (co cs : Bool)
    (he : e ≠ "") (ha : addrComplete a = true) (hpm : pm ≠ "")
    (hcart : findCart db.carts e = none ∨
      ∃ c, findCart db.carts e = some c ∧ c.items = []) :
    apiOrdersPost db e (some a) pm now co cs = (db, ⟨400, "Cart is empty"⟩, none) := by
  unfold apiOrdersPost
  dsimp only
  rw [if_neg (by simp [he, hpm]), if_pos ha]
  rcases hcart with hnone | ⟨c, hc, hitems⟩
  · rw [hnone]
  · rw [hc]
    dsimp only
    rw [if_pos (by simp [hitems])]

/-- C4 witness: a fully valid request for an email that has no cart fails
with "Cart is empty" and leaves the store unchanged. -/
theorem c4_empty_cart_checkout_witness :
    ("admin@x.com" : String) ≠ "" ∧ addrComplete addrW = true ∧
    findCart dbW.carts "admin@x.com" = none ∧
    apiOrdersPost dbW "admin@x.com" (some addrW) "card" 0 true true =
      (dbW, ⟨400, "Cart is empty"⟩, none) :=
  ⟨by decide, by decide, by decide,
   c4_empty_cart_checkout 0 true true (by decide) (by decide) (by decide)
     (Or.inl (by decide))⟩

/-- C5: every cart operation (add, update, remove, clear, checkout) preserves
the cart invariant — every line item quantity at least 1 and product
references unique within one cart — and an update with quantity ≤ 0 removes
the line item instead of persisting a non-positive quantity. -/
theorem c5_cart_invariant {db : DB} (hinv : dbCartsInv db) :
    (∀ e pid q, dbCartsInv (apiCartAdd db e pid q).1) ∧
    (∀ e pid q, dbCartsInv (apiCartUpdate db e pid q).1) ∧
    (∀ e pid, dbCartsInv (apiCartRemove db e pid).1) ∧
    (∀ e, dbCartsInv (apiCartClear db e).1) ∧
    (∀ e da pm now co cs, dbCartsInv (apiOrdersPost db e da pm now co cs).1) ∧
    (∀ e p q c, q ≤ 0 → e ≠ "" → findCart db.carts e = some c →
      hasItem c.items p = true →
      ∃ c', findCart (apiCartUpdate db e (some p) (some q)).1.carts e = some c' ∧
        ∀ it ∈ c'.items, it.productId ≠ p) := by
  refine ⟨fun e pid q => dbCartsInv_apiCartAdd hinv e pid q,
    fun e pid q => dbCartsInv_apiCartUpdate hinv e pid q,
    fun e pid => dbCartsInv_apiCartRemove hinv e pid,
    fun e => dbCartsInv_apiCartClear hinv e,
    fun e da pm now co cs => dbCartsInv_apiOrdersPost hinv e da pm now co cs,
    ?_⟩
  intro e p q c hq he hc hhas
  unfold apiCartUpdate
  dsimp only
  rw [if_neg he, hc]
  dsimp only
  rw [if_pos hhas]
  refine ⟨{ c with items := updateItems c.items p q }, ?_, ?_⟩
  · show findCart (setCartItems db.carts e (updateItems c.items p q)) e = _
    rw [findCart_setCartItems, hc]
    rfl
  · exact updateItems_removes hq (hinv c (findCart_mem hc)).2 p

/-- C5 witness: the invariant holds of the concrete store and is preserved by
a concrete add, a concrete zero-quantity update (which removes the item), a
remove, a clear and a checkout. -/
theorem c5_cart_invariant_witness :
    dbCartsInv dbW ∧
    dbCartsInv (apiCartAdd dbW "pat@x.com" (some 1) (some 2)).1 ∧
    dbCartsInv (apiCartClear dbW "pat@x.com").1 ∧
    ∃ c', findCart (apiCartUpdate dbW "pat@x.com" (some 1) (some 0)).1.carts "pat@x.com"
        = some c' ∧ ∀ it ∈ c'.items, it.productId ≠ 1 :=
  ⟨by decide,
   (c5_cart_invariant (by decide)).1 "pat@x.com" (some 1) (some 2),
   (c5_cart_invariant (by decide)).2.2.2.1 "pat@x.com",
   (c5_cart_invariant (by decide)).2.2.2.2.2 "pat@x.com" 1 0
     ⟨"pat@x.com", [⟨1, 3⟩, ⟨2, 1⟩]⟩ (by decide) (by decide) (by decide) (by decide)⟩

/-- C6 counterexample: an add with quantity exactly 0 is NOT rejected — JS
`quantity || 1` treats 0 as absent, so the request succeeds (200) and adds a
line item with quantity 1, changing the cart. -/
theorem c6_zero_quantity_counterexample :
    (apiCartAdd dbEmpty "a@b.c" (some 7) (some 0)).2.status = 200 ∧
    (apiCartAdd dbEmpty "a@b.c" (some 7) (some 0)).1.carts = [⟨"a@b.c", [⟨7, 1⟩]⟩] := by
  decide

/-- C6 amended: an omitted quantity defaults to 1; a supplied quantity of
exactly 0 is treated as the same default (it is falsy in JS) and the add
succeeds adding 1; a supplied negative quantity is rejected with the
validation error and the cart is unchanged. -/
theorem c6_default_quantity {db : DB} {e : String} (pid : Option Nat) :
    apiCartAdd db e pid none = apiCartAdd db e pid (some 1) ∧
    apiCartAdd db e pid (some 0) = apiCartAdd db e pid (some 1) ∧
    (∀ (p : Nat) (q : Int), e ≠ "" → q < 0 →
      apiCartAdd db e (some p) (some q) =
        (db, ⟨400, "Quantity must be greater than 0"⟩)) := by
  refine ⟨?_, ?_, ?_⟩
  · unfold apiCartAdd
    norm_num [jsOr1]
  · unfold apiCartAdd
    norm_num [jsOr1]
  · intro p q he hq
    unfold apiCartAdd
    dsimp only
    rw [if_neg he, show jsOr1 (some q) = q from by
        simp only [jsOr1]; rw [if_neg (by omega : ¬q = 0)],
      if_pos (by omega : q ≤ 0)]

/-- C6 witness: the defaulting equations and the negative-quantity rejection
at a concrete store. -/
theorem c6_default_quantity_witness :
    apiCartAdd dbEmpty "a@b.c" (some 7) none = apiCartAdd dbEmpty "a@b.c" (some 7) (some 1) ∧
    apiCartAdd dbEmpty "a@b.c" (some 7) (some 0) =
      apiCartAdd dbEmpty "a@b.c" (some 7) (some 1) ∧
    apiCartAdd dbEmpty "a@b.c" (some 7) (some (-1)) =
      (dbEmpty, ⟨400, "Quantity must be greater than 0"⟩) :=
  ⟨(c6_default_quantity (some 7)).1,
   (c6_default_quantity (some 7)).2.1,
   (c6_default_quantity (some 7)).2.2 7 (-1) (by decide) (by decide)⟩

theorem dbW_bitcoin_run :
    apiOrdersPost dbW "pat@x.com" (some addrW) "bitcoin" 0 true true =
      (dbW, ⟨500, "Failed to create order"⟩, none) := by
  simp [apiOrdersPost, dbW, findCart, List.find?, addrComplete, addrW, resolveItems,
    findProduct, orderDocValid, validPaymentMethod]

/-- C7 counterexample: a checkout with the unrecognized payment method
"bitcoin" is rejected with the generic 500 server error (the Mongoose enum
fails inside `Order.create`), not with a 400 validation error. -/
theorem c7_payment_method_counterexample :
    (apiOrdersPost dbW "pat@x.com" (some addrW) "bitcoin" 0 true true).2.1 =
      ⟨500, "Failed to create order"⟩ ∧
    (apiOrdersPost dbW "pat@x.com" (some addrW) "bitcoin" 0 true true).2.1.status ≠ 400 := by
  rw [dbW_bitcoin_run]
  exact ⟨rfl, by decide⟩

/-- C7 amended: a checkout whose payment method is not one of card,
cash_on_delivery, upi never succeeds, creates no order and leaves the store
unchanged; when the request otherwise reaches order creation (cart present,
non-empty, all references resolving) it fails with the generic 500 server
error rather than a validation error. -/
theorem c7_invalid_payment {db : DB} {e : String} {a : DeliveryAddress}
    {pm : String} {now : Nat} {co cs : Bool} {db' : DB} {r : ApiResponse}
    {ro : Option Order}
    (hrun : apiOrdersPost db e (some a) pm now co cs = (db', r, ro))
    (hpm : validPaymentMethod pm = false) :
    db' = db ∧ ro = none ∧ r.status ≠ 201 ∧
    (∀ c, ¬(e = "" ∨ pm = "") → addrComplete a = true →
      findCart db.carts e = some c → c.items.length ≠ 0 →
      resolveItems db c.items ≠ none → r = ⟨500, "Failed to create order"⟩) := by
  unfold apiOrdersPost at hrun
  dsimp only at hrun
  split at hrun
  · rename_i hcond
    simp only [Prod.mk.injEq] at hrun
    obtain ⟨hdb, hr, hro⟩ := hrun; subst hdb; subst hr; subst hro
    exact ⟨rfl, rfl, by simp, fun c hne _ _ _ _ => absurd hcond hne⟩
  · split at hrun
    · split at hrun
      · rename_i hfc
        simp only [Prod.mk.injEq] at hrun
        obtain ⟨hdb, hr, hro⟩ := hrun; subst hdb; subst hr; subst hro
        refine ⟨rfl, rfl, by simp, fun c _ _ hc _ _ => ?_⟩
        rw [hfc] at hc; cases hc
      · rename_i cart hfc
        split at hrun
        · rename_i hlen
          simp only [Prod.mk.injEq] at hrun
          obtain ⟨hdb, hr, hro⟩ := hrun; subst hdb; subst hr; subst hro
          refine ⟨rfl, rfl, by simp, fun c _ _ hc hne _ => ?_⟩
          rw [hfc] at hc
          injection hc with hc
          subst hc
          exact absurd hlen hne
        · split at hrun
          · simp only [Prod.mk.injEq] at hrun
            obtain ⟨hdb, hr, hro⟩ := hrun; subst hdb; subst hr; subst hro
            exact ⟨rfl, rfl, by simp, fun _ _ _ _ _ _ => rfl⟩
          · rename_i its hres
            split at hrun
            · rename_i hvc
              exfalso
              simp [orderDocValid, hpm] at hvc
            · simp only [Prod.mk.injEq] at hrun
              obtain ⟨hdb, hr, hro⟩ := hrun; subst hdb; subst hr; subst hro
              exact ⟨rfl, rfl, by simp, fun _ _ _ _ _ _ => rfl⟩
    · rename_i haddr
      simp only [Prod.mk.injEq] at hrun
      obtain ⟨hdb, hr, hro⟩ := hrun; subst hdb; subst hr; subst hro
      exact ⟨rfl, rfl, by simp, fun c _ ha _ _ _ => absurd ha haddr⟩

/-- C7 witness: the "bitcoin" checkout against the concrete store leaves the
store unchanged, returns no order, and yields the 500 response. -/
theorem c7_invalid_payment_witness :
    validPaymentMethod "bitcoin" = false ∧
    (dbW = dbW ∧ (none : Option Order) = none ∧
      (⟨500, "Failed to create order"⟩ : ApiResponse).status ≠ 201 ∧
      (∀ c, ¬(("pat@x.com" : String) = "" ∨ ("bitcoin" : String) = "") →
        addrComplete addrW = true →
        findCart dbW.carts "pat@x.com" = some c → c.items.length ≠ 0 →
        resolveItems dbW c.items ≠ none →
        (⟨500, "Failed to create order"⟩ : ApiResponse) =
          ⟨500, "Failed to create order"⟩)) :=
  ⟨by decide, c7_invalid_payment dbW_bitcoin_run (by decide)⟩

/-- C8 counterexample: `PUT /api/admin/orders/:id` invoked with an email for
which no account exists fails with 403 (forbidden), not with a 404 not-found
condition as the claim states. -/
theorem c8_gate_counterexample :
    findUser dbOrders "ghost@x.com" = none ∧
    (apiAdminOrderPut dbOrders 0 "ghost@x.com" "shipped").2.status = 403 ∧
    (apiAdminOrderPut dbOrders 0 "ghost@x.com" "shipped").2.status ≠ 404 := by
  decide

/-- C8 amended: the standalone `checkAdmin` middleware distinguishes the two
failures (404 for a missing account, 403 for a non-admin account), but the
admin order route's inline gate returns 403 (forbidden) both when the account
is missing and when its role is not admin; in every failure case no mutation
is performed. -/
theorem c8_admin_gate (db : DB) (oid : Nat) (e st : String) :
    ((findUser db e = none ∨ ∃ u, findUser db e = some u ∧ u.role ≠ "admin") →
      apiAdminOrderPut db oid e st = (db, ⟨403, "Admin access required"⟩)) ∧
    (e ≠ "" → findUser db e = none →
      checkAdmin db e = .error ⟨404, "User not found"⟩) ∧
    (∀ u, e ≠ "" → findUser db e = some u → u.role ≠ "admin" →
      checkAdmin db e = .error ⟨403, "Admin access required"⟩) := by
  refine ⟨?_, ?_, ?_⟩
  · rintro (hnone | ⟨u, hu, hrole⟩)
    · unfold apiAdminOrderPut
      rw [hnone]
    · unfold apiAdminOrderPut
      rw [hu]
      dsimp only
      rw [if_neg hrole]
  · intro he hnone
    unfold checkAdmin
    rw [if_neg he, hnone]
  · intro u he hu hrole
    unfold checkAdmin
    rw [if_neg he, hu]
    dsimp only
    rw [if_neg hrole]

/-- C8 witness: the inline gate rejects both the unknown email and the
non-admin email with 403 and no mutation; `checkAdmin` itself answers 404 and
403 respectively. -/
theorem c8_admin_gate_witness :
    apiAdminOrderPut dbOrders 0 "ghost@x.com" "shipped" =
      (dbOrders, ⟨403, "Admin access required"⟩) ∧
    apiAdminOrderPut dbOrders 0 "pat@x.com" "shipped" =
      (dbOrders, ⟨403, "Admin access required"⟩) ∧
    checkAdmin dbOrders "ghost@x.com" = .error ⟨404, "User not found"⟩ ∧
    checkAdmin dbOrders "pat@x.com" = .error ⟨403, "Admin access required"⟩ :=
  ⟨(c8_admin_gate dbOrders 0 "ghost@x.com" "shipped").1 (Or.inl (by decide)),
   (c8_admin_gate dbOrders 0 "pat@x.com" "shipped").1
     (Or.inr ⟨⟨2, "Pat", "pat@x.com", "h", "user"⟩, by decide, by decide⟩),
   (c8_admin_gate dbOrders 0 "ghost@x.com" "shipped").2.1 (by decide) (by decide),
   (c8_admin_gate dbOrders 0 "pat@x.com" "shipped").2.2
     ⟨2, "Pat", "pat@x.com", "h", "user"⟩ (by decide) (by decide) (by decide)⟩

/-- C9: a checkout on a non-empty cart containing a dangling product
reference fails with the generic 500 server error (not a validation error),
creates no order, and leaves the cart — and the whole store — unchanged. -/
theorem c9_dangling_reference {db : DB} {e : String} {a : DeliveryAddress}
    {pm : String} (now : Nat) (co cs : Bool) (c : Cart)
    (he : e ≠ "") (hpm : pm ≠ "") (ha : addrComplete a = true)
    (hc : findCart db.carts e = some c) (hne : c.items ≠ [])
    (hdangle : ∃ it ∈ c.items, findProduct db it.productId = none) :
    apiOrdersPost db e (some a) pm now co cs =
      (db, ⟨500, "Failed to create order"⟩, none) := by
  unfold apiOrdersPost
  dsimp only
  rw [if_neg (by simp [he, hpm]), if_pos ha, hc]
  dsimp only
  rw [if_neg (by simp [List.length_eq_zero, hne]), resolveItems_none hdangle]

/-- C9 witness: the concrete store whose only cart references the missing
product 9. -/
theorem c9_dangling_reference_witness :
    findCart dbDangling.carts "pat@x.com" = some ⟨"pat@x.com", [⟨9, 2⟩]⟩ ∧
    findProduct dbDangling 9 = none ∧
    apiOrdersPost dbDangling "pat@x.com" (some addrW) "card" 0 true true =
      (dbDangling, ⟨500, "Failed to create order"⟩, none) :=
  ⟨by decide, by decide,
   c9_dangling_reference 0 true true ⟨"pat@x.com", [⟨9, 2⟩]⟩ (by decide) (by decide)
     (by decide) (by decide) (by decide) ⟨⟨9, 2⟩, by decide, by decide⟩⟩

/-- C10: a successful admin order status update (200) changes only the
order's status: products, users and carts are untouched, and every order
keeps its id, owner, items (snapshot names and prices included), total,
delivery address, payment method and order date — only the targeted order's
status becomes the new value, and every other order is entirely unchanged. -/
theorem c10_status_update_frame {db : DB} {oid : Nat} {e st : String}
    {db' : DB} {r : ApiResponse}
    (hrun : apiAdminOrderPut db oid e st = (db', r)) (hst : r.status = 200) :
    db'.products = db.products ∧ db'.users = db.users ∧ db'.carts = db.carts ∧
    List.Forall₂ (fun o o' : Order =>
      o'.id = o.id ∧ o'.userEmail = o.userEmail ∧ o'.items = o.items ∧
      o'.totalAmount = o.totalAmount ∧ o'.deliveryAddress = o.deliveryAddress ∧
      o'.paymentMethod = o.paymentMethod ∧ o'.orderDate = o.orderDate ∧
      (o.id = oid → o'.status = st) ∧ (o.id ≠ oid → o' = o)) db.orders db'.orders := by
  have hdb := apiAdminOrderPut_200 hrun hst
  subst hdb
  refine ⟨rfl, rfl, rfl, ?_⟩
  show List.Forall₂ _ db.orders (setOrderStatus db.orders oid st)
  rw [setOrderStatus, List.forall₂_map_right_iff, List.forall₂_same]
  intro o ho
  by_cases hid : o.id = oid <;> simp [hid]

theorem dbOrders_ship_run :
    apiAdminOrderPut dbOrders 0 "admin@x.com" "shipped" =
      (dbOrdersShipped, ⟨200, "Order status updated successfully"⟩) := by
  decide

/-- C10 witness: shipping the concrete order changes only its status. -/
theorem c10_status_update_frame_witness :
    apiAdminOrderPut dbOrders 0 "admin@x.com" "shipped" =
      (dbOrdersShipped, ⟨200, "Order status updated successfully"⟩) ∧
    (dbOrdersShipped.products = dbOrders.products ∧
     dbOrdersShipped.users = dbOrders.users ∧
     dbOrdersShipped.carts = dbOrders.carts ∧
     List.Forall₂ (fun o o' : Order =>
       o'.id = o.id ∧ o'.userEmail = o.userEmail ∧ o'.items = o.items ∧
       o'.totalAmount = o.totalAmount ∧ o'.deliveryAddress = o.deliveryAddress ∧
       o'.paymentMethod = o.paymentMethod ∧ o'.orderDate = o.orderDate ∧
       (o.id = 0 → o'.status = "shipped") ∧ (o.id ≠ 0 → o' = o))
       dbOrders.orders dbOrdersShipped.orders) :=
  ⟨dbOrders_ship_run, c10_status_update_frame dbOrders_ship_run rfl⟩

end Evercart
